import Mathlib

/-!
Shallow embedding of the ext-proc request pipeline and its metrics layer
from gateway-api-inference-extension.

* `pkg/ext-proc/metrics` (metrics.go): the six collectors, `Register`
  guarded by `sync.Once`, and the `Record*` helpers. Prometheus
  collector state is modelled as lists of labelled observations;
  `time.Time` is modelled as an integer instant (a `time.Time` produced
  by `time.Now()` is always strictly after the zero value, which we
  place at `0` with the live clock starting above it), so a duration in
  seconds is the difference of two instants.
* `pkg/ext-proc/handlers/server.go`: `Server.Process`, the per-stream
  loop over Envoy ext-proc envelopes. The four per-phase handlers are
  methods whose bodies live outside the extracted sources, so the loop
  is parameterised over a `Handlers` record; `HandleResponseBody` is
  additionally modelled from the spec where a claim needs its effect.
-/

namespace GatewayExt

/-! ## Metrics layer (metrics.go) -/

/-- One observation in a `HistogramVec` labelled by
`(model_name, target_model_name)`. -/
structure MetricObservation where
  modelName : String
  targetModelName : String
  value : ℤ
deriving DecidableEq, Repr

/-- The state of the six package-level collectors of the metrics
package: `requestCounter`, `requestLatencies`, `requestSizes`,
`responseSizes`, `inputTokens`, `outputTokens`. A counter `Inc` and a
histogram `Observe` both prepend to the corresponding list. -/
structure MetricsState where
  requestCounter : List (String × String)
  requestLatencies : List MetricObservation
  requestSizes : List MetricObservation
  responseSizes : List MetricObservation
  inputTokens : List MetricObservation
  outputTokens : List MetricObservation
deriving DecidableEq, Repr

def emptyMetrics : MetricsState :=
  { requestCounter := []
    requestLatencies := []
    requestSizes := []
    responseSizes := []
    inputTokens := []
    outputTokens := [] }

/-- `RecordRequestCounter(modelName, targetModelName)`:
`requestCounter.WithLabelValues(...).Inc()`. -/
def RecordRequestCounter (m : MetricsState) (modelName targetModelName : String) :
    MetricsState :=
  { m with requestCounter := (modelName, targetModelName) :: m.requestCounter }

/-- `RecordRequestSizes(modelName, targetModelName, reqSize)`:
`requestSizes.WithLabelValues(...).Observe(float64(reqSize))`. -/
def RecordRequestSizes (m : MetricsState) (modelName targetModelName : String)
    (reqSize : ℤ) : MetricsState :=
  { m with requestSizes :=
      ⟨modelName, targetModelName, reqSize⟩ :: m.requestSizes }

/-- `RecordRequestLatencies(modelName, targetModelName, received, complete)`:
if `!complete.After(received)` it logs an error and returns `false`
without observing; otherwise it observes `complete.Sub(received).Seconds()`
and returns `true`. -/
def RecordRequestLatencies (m : MetricsState) (modelName targetModelName : String)
    (received complete : ℤ) : MetricsState × Bool :=
  if received < complete then
    ({ m with requestLatencies :=
        ⟨modelName, targetModelName, complete - received⟩ :: m.requestLatencies },
      true)
  else
    (m, false)

/-- `RecordResponseSizes(modelName, targetModelName, size)`. -/
def RecordResponseSizes (m : MetricsState) (modelName targetModelName : String)
    (size : ℤ) : MetricsState :=
  { m with responseSizes :=
      ⟨modelName, targetModelName, size⟩ :: m.responseSizes }

/-- `RecordInputTokens(modelName, targetModelName, size)`. -/
def RecordInputTokens (m : MetricsState) (modelName targetModelName : String)
    (size : ℤ) : MetricsState :=
  { m with inputTokens :=
      ⟨modelName, targetModelName, size⟩ :: m.inputTokens }

/-- `RecordOutputTokens(modelName, targetModelName, size)`. -/
def RecordOutputTokens (m : MetricsState) (modelName targetModelName : String)
    (size : ℤ) : MetricsState :=
  { m with outputTokens :=
      ⟨modelName, targetModelName, size⟩ :: m.outputTokens }

/-! ### `Register` and `sync.Once` -/

/-- The `sync.Once` flag `registerMetrics` together with the
`legacyregistry` contents (collector names in registration order). -/
structure MetricsGlobal where
  onceDone : Bool
  registered : List String
deriving DecidableEq, Repr

/-- The six collectors `Register` hands to `legacyregistry.MustRegister`,
in source order. -/
def collectorNames : List String :=
  ["requestCounter", "requestLatencies", "requestSizes",
   "responseSizes", "inputTokens", "outputTokens"]

/-- Process start: the `sync.Once` has not fired and nothing is
registered. -/
def initMetricsGlobal : MetricsGlobal :=
  { onceDone := false, registered := [] }

/-- `Register()`: `registerMetrics.Do(func() { MustRegister(...) × 6 })`.
The closure runs only on the first call. -/
def Register (g : MetricsGlobal) : MetricsGlobal :=
  if g.onceDone then g
  else { onceDone := true, registered := g.registered ++ collectorNames }

/-! ## Request pipeline (handlers/server.go) -/

/-- `Usage` of the parsed response body
(`usage.prompt_tokens`, `usage.completion_tokens`). The Go zero value is
`⟨0, 0⟩`. -/
structure Usage where
  PromptTokens : ℤ
  CompletionTokens : ℤ
deriving DecidableEq, Repr

/-- The parsed response stored in the request context. Its Go zero value
carries a zero-valued `Usage`. -/
structure Response where
  Usage : Usage
deriving DecidableEq, Repr

/-- `RequestContext` of server.go: per-request state shared by the loop
iterations of one stream. `backend.Pod` is identified by its address
string; timestamps are integer instants with the Go zero `time.Time`
at `0`. -/
structure RequestContext where
  TargetPod : String
  Model : String
  ResolvedTargetModel : String
  RequestReceivedTimestamp : ℤ
  ResponseCompleteTimestamp : ℤ
  RequestSize : ℤ
  Response : Response
  ResponseSize : ℤ
  ResponseComplete : Bool
deriving DecidableEq, Repr

/-- `reqCtx := &RequestContext{}`: all fields at their Go zero values. -/
def initRequestContext : RequestContext :=
  { TargetPod := ""
    Model := ""
    ResolvedTargetModel := ""
    RequestReceivedTimestamp := 0
    ResponseCompleteTimestamp := 0
    RequestSize := 0
    Response := ⟨⟨0, 0⟩⟩
    ResponseSize := 0
    ResponseComplete := false }

/-- gRPC status codes the loop distinguishes. `Unknown` is what
`status.Code` yields for a plain (non-status) error. -/
inductive Code where
  | OK
  | Unknown
  | InvalidArgument
  | ResourceExhausted
  | Unavailable
  | Internal
deriving DecidableEq, Repr

/-- A Go `error` as the loop observes it: `status.Code(err)` on it
yields `code`. `none : Option GoError` is Go `nil`. -/
structure GoError where
  code : Code
deriving DecidableEq, Repr

/-- An ext-proc `ProcessingResponse` as sent back on the stream: an
`ImmediateResponse` with an HTTP status, a `CommonResponse` carrying
header mutations, or an empty response. -/
inductive ProcessingResponse where
  | ImmediateResponse (httpStatus : ℕ)
  | CommonResponse (headerMutations : List (String × String))
  | Empty
deriving DecidableEq, Repr

/-- Payload of a headers envelope. -/
structure HeadersMsg where
  headers : List (String × String)
deriving DecidableEq, Repr

/-- Payload of a body envelope: byte count, optional parsed `usage`,
and the `end_of_stream` flag. -/
structure BodyMsg where
  sizeBytes : ℤ
  usage : Option Usage
  endOfStream : Bool
deriving DecidableEq, Repr

/-- The four `ProcessingRequest` variants matched by the `switch`, plus
the `default` case for any other variant. -/
inductive ProcessingRequest where
  | RequestHeaders (msg : HeadersMsg)
  | RequestBody (msg : BodyMsg)
  | ResponseHeaders (msg : HeadersMsg)
  | ResponseBody (msg : BodyMsg)
  | UnknownType
deriving DecidableEq, Repr

/-- Outcome of one `srv.Recv()` call. -/
inductive RecvResult where
  | EOF
  | RecvError
  | Msg (req : ProcessingRequest)
deriving DecidableEq, Repr

/-- One loop iteration's interaction with the transport: whether
`ctx.Done()` is closed when the iteration starts, what `Recv` returns,
and whether a `Send` performed in this iteration fails. -/
structure StreamEvent where
  ctxDone : Bool
  recv : RecvResult
  sendFails : Bool
deriving DecidableEq, Repr

/-- What `Process` returns: `nilOK` is `return nil` (EOF), `ctxErr` is
`return ctx.Err()`, `grpcErr c` is `return status.Errorf(c, ...)`. -/
inductive ProcessResult where
  | nilOK
  | ctxErr
  | grpcErr (code : Code)
deriving DecidableEq, Repr

/-- State threaded through the loop: the request context, the
package-level metrics, the wall clock (strictly above every timestamp
handed out so far), and the responses sent so far. -/
structure ProcessState where
  reqCtx : RequestContext
  metrics : MetricsState
  clock : ℤ
  sent : List ProcessingResponse
deriving DecidableEq, Repr

/-- `time.Now()`: advance the clock and return the new instant; every
instant returned is strictly after `0` (the zero `time.Time`) and after
every earlier instant. -/
def tick (s : ProcessState) : ℤ × ProcessState :=
  (s.clock + 1, { s with clock := s.clock + 1 })

/-- The per-phase handler methods of `Server`
(`HandleRequestHeaders`, `HandleRequestBody`, `HandleResponseHeaders`,
`HandleResponseBody`); their bodies live outside the extracted sources,
so the loop is parameterised over them. Each takes and returns the
request context (Go mutates it through the pointer);
`HandleRequestHeaders` returns no error. -/
structure Handlers where
  handleRequestHeaders : RequestContext → HeadersMsg → RequestContext × ProcessingResponse
  handleRequestBody :
    RequestContext → BodyMsg → RequestContext × ProcessingResponse × Option GoError
  handleResponseHeaders :
    RequestContext → HeadersMsg → RequestContext × ProcessingResponse × Option GoError
  handleResponseBody :
    RequestContext → BodyMsg → RequestContext × ProcessingResponse × Option GoError

/-- `srv.Send(resp)` followed by `continue`: on send failure the loop
returns `status.Errorf(codes.Unknown, ...)`; otherwise the response is
recorded as sent and the loop continues (`none`). -/
def sendStep (s : ProcessState) (resp : ProcessingResponse) (sendFails : Bool) :
    ProcessState × Option ProcessResult :=
  if sendFails then (s, some (ProcessResult.grpcErr Code.Unknown))
  else ({ s with sent := s.sent ++ [resp] }, none)

/-- The `if err != nil` block after the `switch`, followed by the
`Send`: a `ResourceExhausted` error is replaced by an
`ImmediateResponse` with HTTP 429 (`StatusCode_TooManyRequests`) and the
loop continues; any other error is returned with its own status code;
with no error the switch's response is sent. -/
def afterSwitch (s : ProcessState) (resp : ProcessingResponse) (err : Option GoError)
    (sendFails : Bool) : ProcessState × Option ProcessResult :=
  match err with
  | some e =>
    match e.code with
    | Code.ResourceExhausted =>
        sendStep s (ProcessingResponse.ImmediateResponse 429) sendFails
    | c => (s, some (ProcessResult.grpcErr c))
  | none => sendStep s resp sendFails

/-- The `switch v := req.Request.(type)` body of `Process`. -/
def switchStep (h : Handlers) (s : ProcessState) (req : ProcessingRequest)
    (sendFails : Bool) : ProcessState × Option ProcessResult :=
  match req with
  | ProcessingRequest.RequestHeaders msg =>
      let ts := tick s
      let rc0 := { ts.2.reqCtx with RequestReceivedTimestamp := ts.1 }
      let hr := h.handleRequestHeaders rc0 msg
      afterSwitch { ts.2 with reqCtx := hr.1 } hr.2 none sendFails
  | ProcessingRequest.RequestBody msg =>
      let hr := h.handleRequestBody s.reqCtx msg
      let s1 := { s with reqCtx := hr.1 }
      let s2 :=
        match hr.2.2 with
        | none =>
            let m0 := RecordRequestCounter s1.metrics s1.reqCtx.Model
              s1.reqCtx.ResolvedTargetModel
            let m1 := RecordRequestSizes m0 s1.reqCtx.Model
              s1.reqCtx.ResolvedTargetModel s1.reqCtx.RequestSize
            { s1 with metrics := m1 }
        | some _ => s1
      afterSwitch s2 hr.2.1 hr.2.2 sendFails
  | ProcessingRequest.ResponseHeaders msg =>
      let hr := h.handleResponseHeaders s.reqCtx msg
      afterSwitch { s with reqCtx := hr.1 } hr.2.1 hr.2.2 sendFails
  | ProcessingRequest.ResponseBody msg =>
      let hr := h.handleResponseBody s.reqCtx msg
      if hr.2.2 = none ∧ hr.1.ResponseComplete then
        let ts := tick { s with reqCtx := hr.1 }
        let rc := { ts.2.reqCtx with ResponseCompleteTimestamp := ts.1 }
        let m1 := RecordRequestLatencies ts.2.metrics rc.Model rc.ResolvedTargetModel
          rc.RequestReceivedTimestamp rc.ResponseCompleteTimestamp
        let m2 := RecordResponseSizes m1.1 rc.Model rc.ResolvedTargetModel rc.ResponseSize
        let m3 := RecordInputTokens m2 rc.Model rc.ResolvedTargetModel
          rc.Response.Usage.PromptTokens
        let m4 := RecordOutputTokens m3 rc.Model rc.ResolvedTargetModel
          rc.Response.Usage.CompletionTokens
        afterSwitch { ts.2 with reqCtx := rc, metrics := m4 } hr.2.1 hr.2.2 sendFails
      else
        afterSwitch { s with reqCtx := hr.1 } hr.2.1 hr.2.2 sendFails
  | ProcessingRequest.UnknownType =>
      (s, some (ProcessResult.grpcErr Code.Unknown))

/-- One iteration of the `for` loop in `Process`: the `select` on
`ctx.Done()`, then `Recv` (EOF returns `nil`, a receive error returns
`codes.Unknown`), then the switch. `none` as second component means the
loop continues into the next iteration. -/
def processIteration (h : Handlers) (s : ProcessState) (e : StreamEvent) :
    ProcessState × Option ProcessResult :=
  if e.ctxDone then (s, some ProcessResult.ctxErr)
  else
    match e.recv with
    | RecvResult.EOF => (s, some ProcessResult.nilOK)
    | RecvResult.RecvError => (s, some (ProcessResult.grpcErr Code.Unknown))
    | RecvResult.Msg req => switchStep h s req e.sendFails

/-- The `for` loop of `Process` driven by a finite schedule of stream
events; `none` means the schedule ran out with the loop still blocked
in `Recv`. -/
def processLoop (h : Handlers) : List StreamEvent → ProcessState →
    ProcessState × Option ProcessResult
  | [], s => (s, none)
  | e :: rest, s =>
    match processIteration h s e with
    | (s', none) => processLoop h rest s'
    | (s', some r) => (s', some r)

/-- `Server.Process` on a fresh stream: zero-valued request context,
given initial metrics, clock at the zero instant, nothing sent. -/
def Process (h : Handlers) (m : MetricsState) (events : List StreamEvent) :
    ProcessState × Option ProcessResult :=
  processLoop h events
    { reqCtx := initRequestContext, metrics := m, clock := 0, sent := [] }

/-! ## Spec-modelled response-body handler and concrete handler bundles -/

/-- Modelled from the spec: `Server.HandleResponseBody` is absent from
the extracted sources (only its call site in `Process` is present). Per
§4.5, a partial `ResponseBody` accumulates size and, for streamed SSE,
parses `usage` from the final chunk if present (state stays
`AwaitResponseBody`); an `end_of_stream` body marks the response
complete so that `Process` performs the terminal accounting. It never
fails. -/
def HandleResponseBody (reqCtx : RequestContext) (msg : BodyMsg) :
    RequestContext × ProcessingResponse × Option GoError :=
  let rc :=
    { reqCtx with
        ResponseSize := reqCtx.ResponseSize + msg.sizeBytes
        Response :=
          match msg.usage with
          | some u => ⟨u⟩
          | none => reqCtx.Response
        ResponseComplete := msg.endOfStream }
  (rc, ProcessingResponse.CommonResponse [], none)

/-- A minimal handler bundle for concrete runs: pass-through
header/body handlers that never fail, with the spec-modelled
`HandleResponseBody` in the response-body slot. Used as concrete input
for witnesses and counterexamples. -/
def sampleHandlers : Handlers :=
  { handleRequestHeaders := fun rc _ => (rc, ProcessingResponse.CommonResponse [])
    handleRequestBody := fun rc _ =>
      let rc' := { rc with Model := "sql-lora", ResolvedTargetModel := "sql-lora-1fdg2", RequestSize := 42 }
      (rc', ProcessingResponse.CommonResponse [("target-pod", "10.0.0.1:8000")], none)
    handleResponseHeaders := fun rc _ => (rc, ProcessingResponse.Empty, none)
    handleResponseBody := HandleResponseBody }

/-- Like `sampleHandlers`, but the request-body handler fails with a
plain (non-status, hence `Unknown`-coded) internal error. Concrete
input for the error-path analysis. -/
def internalErrHandlers : Handlers :=
  { sampleHandlers with
      handleRequestBody := fun rc _ =>
        (rc, ProcessingResponse.Empty, some ⟨Code.Internal⟩) }

/-- Initial loop state for a fresh stream, made explicit for reuse in
concrete runs. -/
def initProcessState (m : MetricsState) : ProcessState :=
  { reqCtx := initRequestContext, metrics := m, clock := 0, sent := [] }

/-! ## Helper lemmas about the error/send tail of an iteration -/

theorem sendStep_metrics (s : ProcessState) (resp : ProcessingResponse) (b : Bool) :
    (sendStep s resp b).1.metrics = s.metrics := by
  cases b <;> simp [sendStep]

theorem sendStep_reqCtx (s : ProcessState) (resp : ProcessingResponse) (b : Bool) :
    (sendStep s resp b).1.reqCtx = s.reqCtx := by
  cases b <;> simp [sendStep]

theorem sendStep_clock (s : ProcessState) (resp : ProcessingResponse) (b : Bool) :
    (sendStep s resp b).1.clock = s.clock := by
  cases b <;> simp [sendStep]

theorem afterSwitch_metrics (s : ProcessState) (resp : ProcessingResponse)
    (err : Option GoError) (b : Bool) : (afterSwitch s resp err b).1.metrics = s.metrics := by
  match err with
  | none => exact sendStep_metrics s resp b
  | some e =>
    cases h : e.code <;> simp [afterSwitch, h, sendStep_metrics]

theorem afterSwitch_reqCtx (s : ProcessState) (resp : ProcessingResponse)
    (err : Option GoError) (b : Bool) : (afterSwitch s resp err b).1.reqCtx = s.reqCtx := by
  match err with
  | none => exact sendStep_reqCtx s resp b
  | some e =>
    cases h : e.code <;> simp [afterSwitch, h, sendStep_reqCtx]

theorem afterSwitch_clock (s : ProcessState) (resp : ProcessingResponse)
    (err : Option GoError) (b : Bool) : (afterSwitch s resp err b).1.clock = s.clock := by
  match err with
  | none => exact sendStep_clock s resp b
  | some e =>
    cases h : e.code <;> simp [afterSwitch, h, sendStep_clock]

/-! ## Claims -/

/-- C5: `RecordRequestLatencies(model, target, received, complete)`
observes the latency histogram with the elapsed seconds
`complete - received` and returns `true` exactly when `complete` is
strictly after `received`; when `complete` is at or before `received`
it observes nothing and returns `false`. -/
theorem recordRequestLatencies_spec (m : MetricsState) (a b : String)
    (received complete : ℤ) :
    ((RecordRequestLatencies m a b received complete).2 = true ↔ received < complete)
    ∧ (received < complete →
        (RecordRequestLatencies m a b received complete).1 =
          { m with requestLatencies :=
              ⟨a, b, complete - received⟩ :: m.requestLatencies })
    ∧ (complete ≤ received →
        (RecordRequestLatencies m a b received complete).1 = m) := by
  by_cases hlt : received < complete
  · exact ⟨by simp [RecordRequestLatencies, hlt],
      fun _ => by simp [RecordRequestLatencies, hlt],
      fun hle => absurd hlt (not_lt.mpr hle)⟩
  · exact ⟨by simp [RecordRequestLatencies, hlt],
      fun hgt => absurd hgt hlt,
      fun _ => by simp [RecordRequestLatencies, hlt]⟩

/-- Witness for C5 at concrete inputs `received = 1`, `complete = 3`. -/
theorem recordRequestLatencies_spec_witness :
    ((RecordRequestLatencies emptyMetrics "m10" "t10" 1 3).2 = true ↔ (1 : ℤ) < 3)
    ∧ ((1 : ℤ) < 3 →
        (RecordRequestLatencies emptyMetrics "m10" "t10" 1 3).1 =
          { emptyMetrics with requestLatencies :=
              ⟨"m10", "t10", 3 - 1⟩ :: emptyMetrics.requestLatencies })
    ∧ ((3 : ℤ) ≤ 1 →
        (RecordRequestLatencies emptyMetrics "m10" "t10" 1 3).1 = emptyMetrics) :=
  recordRequestLatencies_spec emptyMetrics "m10" "t10" 1 3

/-- C10: `Register` is idempotent: the `sync.Once` guard makes every
call after the first a no-op, and each of the six collectors ends up
registered exactly once no matter how many times `Register` runs. -/
theorem register_idempotent_once (n : ℕ) (hn : 1 ≤ n) :
    Register^[n] initMetricsGlobal = Register initMetricsGlobal
    ∧ (collectorNames.all
        fun c => (Register^[n] initMetricsGlobal).registered.count c = 1) = true := by
  have hfix : ∀ g : MetricsGlobal, Register (Register g) = Register g := by
    intro g
    by_cases h : g.onceDone = true
    · simp [Register, h]
    · simp [Register, h]
  have hiter : ∀ k : ℕ, Register^[k + 1] initMetricsGlobal = Register initMetricsGlobal := by
    intro k
    induction k with
    | zero => simp
    | succ j ih => rw [Function.iterate_succ_apply', ih, hfix]
  obtain ⟨k, rfl⟩ : ∃ k, n = k + 1 := ⟨n - 1, by omega⟩
  refine ⟨hiter k, ?_⟩
  rw [hiter k]
  decide

/-- Witness for C10 at `n = 3` calls. -/
theorem register_idempotent_once_witness :
    Register^[3] initMetricsGlobal = Register initMetricsGlobal
    ∧ (collectorNames.all
        fun c => (Register^[3] initMetricsGlobal).registered.count c = 1) = true :=
  register_idempotent_once 3 (by decide)

/-- C6: once the stream's context is cancelled, the next loop iteration
returns `ctx.Err()` without receiving the pending envelope, leaving the
state (hence the set of emitted responses and all metrics) untouched. -/
theorem ctx_cancelled_terminates (h : Handlers) (s : ProcessState) (e : StreamEvent)
    (rest : List StreamEvent) (hdone : e.ctxDone = true) :
    processLoop h (e :: rest) s = (s, some ProcessResult.ctxErr) := by
  simp [processLoop, processIteration, hdone]

/-- Witness for C6: a cancelled context with an envelope still queued. -/
theorem ctx_cancelled_terminates_witness :
    processLoop sampleHandlers
        [⟨true, RecvResult.Msg (ProcessingRequest.RequestHeaders ⟨[]⟩), false⟩]
        (initProcessState emptyMetrics) =
      (initProcessState emptyMetrics, some ProcessResult.ctxErr) :=
  ctx_cancelled_terminates sampleHandlers (initProcessState emptyMetrics)
    ⟨true, RecvResult.Msg (ProcessingRequest.RequestHeaders ⟨[]⟩), false⟩ [] rfl

/-- C8: an envelope of any variant other than the four request types
makes `Process` return a gRPC `Unknown`-code error, with the state (in
particular the list of sent responses) unchanged: no `ImmediateResponse`
and no header mutation is sent for that envelope. -/
theorem unknown_request_type_terminates (h : Handlers) (s : ProcessState) (b : Bool) :
    processIteration h s ⟨false, RecvResult.Msg ProcessingRequest.UnknownType, b⟩ =
      (s, some (ProcessResult.grpcErr Code.Unknown)) := rfl

/-- C9: when `Recv` reports `io.EOF`, `Process` returns `nil` with the
state unchanged: nothing further is sent and no accounting observation
is emitted. -/
theorem recv_eof_returns_nil (h : Handlers) (s : ProcessState) (b : Bool)
    (rest : List StreamEvent) :
    processLoop h (⟨false, RecvResult.EOF, b⟩ :: rest) s =
      (s, some ProcessResult.nilOK) := rfl

/-- C1 counterexample: a `RequestBody` envelope whose handler fails
with a non-`ResourceExhausted` (here `Internal`) error. `Process` does
NOT emit an `ImmediateResponse` with HTTP 503 — it sends nothing and
returns the error as a stream-level gRPC failure, contradicting the
claim that no error is ever propagated past the per-stream handler. -/
theorem error_immediate_response_cex :
    (Process internalErrHandlers emptyMetrics
        [⟨false, RecvResult.Msg (ProcessingRequest.RequestBody ⟨5, none, true⟩), false⟩]).2 =
      some (ProcessResult.grpcErr Code.Internal)
    ∧ (Process internalErrHandlers emptyMetrics
        [⟨false, RecvResult.Msg (ProcessingRequest.RequestBody ⟨5, none, true⟩), false⟩]).1.sent =
      [] := by
  exact ⟨rfl, rfl⟩

/-- C1 amended: for every envelope whose handler returns an error, the
error branch of `Process` sends an `ImmediateResponse` with HTTP 429 and
keeps the stream alive exactly when the error's code is
`ResourceExhausted`; for every other code it sends nothing for that
envelope and returns the error from `Process` as a stream-level gRPC
failure carrying the same code (there is no 503 `ImmediateResponse`
path). -/
theorem error_branch_status_codes (s : ProcessState) (resp : ProcessingResponse)
    (e : GoError) :
    (e.code = Code.ResourceExhausted →
      afterSwitch s resp (some e) false =
        ({ s with sent := s.sent ++ [ProcessingResponse.ImmediateResponse 429] }, none))
    ∧ (e.code ≠ Code.ResourceExhausted →
      ∀ b : Bool, afterSwitch s resp (some e) b =
        (s, some (ProcessResult.grpcErr e.code))) := by
  constructor
  · intro hre
    simp [afterSwitch, hre, sendStep]
  · intro hne b
    cases hc : e.code
    case ResourceExhausted => exact absurd hc hne
    all_goals simp [afterSwitch, hc, sendStep]

/-- Witness for C1 (amended) at a `ResourceExhausted` and an `Internal`
error on the initial state. -/
theorem error_branch_status_codes_witness :
    afterSwitch (initProcessState emptyMetrics) ProcessingResponse.Empty
        (some ⟨Code.ResourceExhausted⟩) false =
      ({ initProcessState emptyMetrics with
          sent := (initProcessState emptyMetrics).sent ++
            [ProcessingResponse.ImmediateResponse 429] }, none)
    ∧ afterSwitch (initProcessState emptyMetrics) ProcessingResponse.Empty
        (some ⟨Code.Internal⟩) true =
      (initProcessState emptyMetrics, some (ProcessResult.grpcErr Code.Internal)) :=
  ⟨(error_branch_status_codes (initProcessState emptyMetrics)
      ProcessingResponse.Empty ⟨Code.ResourceExhausted⟩).1 rfl,
   (error_branch_status_codes (initProcessState emptyMetrics)
      ProcessingResponse.Empty ⟨Code.Internal⟩).2 (by decide) true⟩

/-- Stream schedule falsifying C2: headers then a successfully handled
request body, with the response never arriving. -/
def c2Events : List StreamEvent :=
  [⟨false, RecvResult.Msg (ProcessingRequest.RequestHeaders ⟨[]⟩), false⟩,
   ⟨false, RecvResult.Msg (ProcessingRequest.RequestBody ⟨42, none, true⟩), false⟩]

/-- C2 counterexample: after the request-body envelope is handled the
request counter and the request-size histogram already hold one entry,
although the response never completed (`ResponseComplete` is still
`false` and the completion timestamp is still the zero instant) — so
these observations are not emitted on entering Done and are emitted for
requests whose response never completes. -/
theorem request_counter_before_done_cex :
    (Process sampleHandlers emptyMetrics c2Events).1.metrics.requestCounter =
      [("sql-lora", "sql-lora-1fdg2")]
    ∧ (Process sampleHandlers emptyMetrics c2Events).1.metrics.requestSizes =
      [⟨"sql-lora", "sql-lora-1fdg2", 42⟩]
    ∧ (Process sampleHandlers emptyMetrics c2Events).1.reqCtx.ResponseComplete = false
    ∧ (Process sampleHandlers emptyMetrics c2Events).1.reqCtx.ResponseCompleteTimestamp = 0
    ∧ (Process sampleHandlers emptyMetrics c2Events).2 = none := by
  refine ⟨?_, ?_, ?_, ?_, ?_⟩ <;> decide

/-- C2 amended: the request counter increment and the request-size
observation are emitted as soon as the `RequestBody` envelope is handled
without error — independently of whether the response ever completes —
labelled by the `(Model, ResolvedTargetModel)` pair the handler left in
the request context; when the handler errors, neither is emitted. -/
theorem request_counter_on_request_body (h : Handlers) (s : ProcessState)
    (msg : BodyMsg) (b : Bool) :
    ((h.handleRequestBody s.reqCtx msg).2.2 = none →
      (processIteration h s
          ⟨false, RecvResult.Msg (ProcessingRequest.RequestBody msg), b⟩).1.metrics.requestCounter =
        ((h.handleRequestBody s.reqCtx msg).1.Model,
          (h.handleRequestBody s.reqCtx msg).1.ResolvedTargetModel) ::
          s.metrics.requestCounter
      ∧ (processIteration h s
          ⟨false, RecvResult.Msg (ProcessingRequest.RequestBody msg), b⟩).1.metrics.requestSizes =
        ⟨(h.handleRequestBody s.reqCtx msg).1.Model,
          (h.handleRequestBody s.reqCtx msg).1.ResolvedTargetModel,
          ((h.handleRequestBody s.reqCtx msg).1.RequestSize : ℤ)⟩ ::
          s.metrics.requestSizes
      ∧ (processIteration h s
          ⟨false, RecvResult.Msg (ProcessingRequest.RequestBody msg), b⟩).1.metrics.requestLatencies =
        s.metrics.requestLatencies
      ∧ (processIteration h s
          ⟨false, RecvResult.Msg (ProcessingRequest.RequestBody msg), b⟩).1.metrics.responseSizes =
        s.metrics.responseSizes)
    ∧ ((h.handleRequestBody s.reqCtx msg).2.2 ≠ none →
      (processIteration h s
          ⟨false, RecvResult.Msg (ProcessingRequest.RequestBody msg), b⟩).1.metrics =
        s.metrics) := by
  constructor
  · intro hok
    simp only [processIteration, Bool.false_eq_true, if_false, switchStep]
    rw [hok, afterSwitch_metrics]
    simp [RecordRequestCounter, RecordRequestSizes]
  · intro herr
    simp only [processIteration, Bool.false_eq_true, if_false, switchStep]
    cases hcase : (h.handleRequestBody s.reqCtx msg).2.2 with
    | none => exact absurd hcase herr
    | some e =>
      rw [afterSwitch_metrics]

/-- C3: when a `ResponseBody` envelope is handled without error and the
handler marks the response complete, the iteration stamps the completion
timestamp with the fresh instant `s.clock + 1` and pushes exactly one
latency observation (value `complete - received`), exactly one
response-size observation, exactly one input-token and exactly one
output-token observation — the latter pair in particular at most one
each — all labelled by the `(Model, ResolvedTargetModel)` pair of the
request context. The hypothesis `ht` says the recorded receive
timestamp is no later than the current clock, which holds for every
reachable state since all timestamps come from past `time.Now()`
calls. -/
theorem response_complete_accounting (h : Handlers) (s : ProcessState) (msg : BodyMsg)
    (rc' : RequestContext) (resp : ProcessingResponse) (b : Bool)
    (hh : h.handleResponseBody s.reqCtx msg = (rc', resp, none))
    (hc : rc'.ResponseComplete = true)
    (ht : rc'.RequestReceivedTimestamp ≤ s.clock) :
    (processIteration h s
        ⟨false, RecvResult.Msg (ProcessingRequest.ResponseBody msg), b⟩).1.reqCtx.ResponseCompleteTimestamp =
      s.clock + 1
    ∧ (processIteration h s
        ⟨false, RecvResult.Msg (ProcessingRequest.ResponseBody msg), b⟩).1.metrics.requestLatencies =
      ⟨rc'.Model, rc'.ResolvedTargetModel,
        s.clock + 1 - rc'.RequestReceivedTimestamp⟩ :: s.metrics.requestLatencies
    ∧ (processIteration h s
        ⟨false, RecvResult.Msg (ProcessingRequest.ResponseBody msg), b⟩).1.metrics.responseSizes =
      ⟨rc'.Model, rc'.ResolvedTargetModel, (rc'.ResponseSize : ℤ)⟩ ::
        s.metrics.responseSizes
    ∧ (processIteration h s
        ⟨false, RecvResult.Msg (ProcessingRequest.ResponseBody msg), b⟩).1.metrics.inputTokens =
      ⟨rc'.Model, rc'.ResolvedTargetModel, (rc'.Response.Usage.PromptTokens : ℤ)⟩ ::
        s.metrics.inputTokens
    ∧ (processIteration h s
        ⟨false, RecvResult.Msg (ProcessingRequest.ResponseBody msg), b⟩).1.metrics.outputTokens =
      ⟨rc'.Model, rc'.ResolvedTargetModel, (rc'.Response.Usage.CompletionTokens : ℤ)⟩ ::
        s.metrics.outputTokens := by
  have hlt : rc'.RequestReceivedTimestamp < s.clock + 1 :=
    lt_of_le_of_lt ht (lt_add_one s.clock)
  simp only [processIteration, Bool.false_eq_true, if_false, switchStep]
  rw [hh]
  simp only [hc, and_true, true_and, if_true, tick, RecordRequestLatencies, hlt, if_pos,
    RecordResponseSizes, RecordInputTokens, RecordOutputTokens]
  rw [afterSwitch_reqCtx, afterSwitch_metrics]
  simp

/-- A mid-stream state for concrete runs: request headers were received
at instant 1, the model alias and weighted target are resolved, the
clock stands at 1. -/
def midState : ProcessState :=
  { reqCtx := { initRequestContext with Model := "sql-lora", ResolvedTargetModel := "sql-lora-1fdg2", RequestReceivedTimestamp := 1 }
    metrics := emptyMetrics
    clock := 1
    sent := [] }

/-- Concrete terminal response-body envelope carrying a usage frame. -/
def c3Body : BodyMsg := ⟨7, some ⟨3, 4⟩, true⟩

/-- The request context `HandleResponseBody` produces on `midState` and
`c3Body`. -/
def c3Ctx : RequestContext := (HandleResponseBody midState.reqCtx c3Body).1

/-- Witness for C3 on `midState` and a terminal usage-carrying body. -/
theorem response_complete_accounting_witness :
    (processIteration sampleHandlers midState
        ⟨false, RecvResult.Msg (ProcessingRequest.ResponseBody c3Body), false⟩).1.reqCtx.ResponseCompleteTimestamp =
      midState.clock + 1
    ∧ (processIteration sampleHandlers midState
        ⟨false, RecvResult.Msg (ProcessingRequest.ResponseBody c3Body), false⟩).1.metrics.requestLatencies =
      ⟨c3Ctx.Model, c3Ctx.ResolvedTargetModel,
        midState.clock + 1 - c3Ctx.RequestReceivedTimestamp⟩ ::
        midState.metrics.requestLatencies
    ∧ (processIteration sampleHandlers midState
        ⟨false, RecvResult.Msg (ProcessingRequest.ResponseBody c3Body), false⟩).1.metrics.responseSizes =
      ⟨c3Ctx.Model, c3Ctx.ResolvedTargetModel, (c3Ctx.ResponseSize : ℤ)⟩ ::
        midState.metrics.responseSizes
    ∧ (processIteration sampleHandlers midState
        ⟨false, RecvResult.Msg (ProcessingRequest.ResponseBody c3Body), false⟩).1.metrics.inputTokens =
      ⟨c3Ctx.Model, c3Ctx.ResolvedTargetModel, (c3Ctx.Response.Usage.PromptTokens : ℤ)⟩ ::
        midState.metrics.inputTokens
    ∧ (processIteration sampleHandlers midState
        ⟨false, RecvResult.Msg (ProcessingRequest.ResponseBody c3Body), false⟩).1.metrics.outputTokens =
      ⟨c3Ctx.Model, c3Ctx.ResolvedTargetModel, (c3Ctx.Response.Usage.CompletionTokens : ℤ)⟩ ::
        midState.metrics.outputTokens :=
  response_complete_accounting sampleHandlers midState c3Body c3Ctx
    (HandleResponseBody midState.reqCtx c3Body).2.1 false rfl rfl (by decide)

/-- Stream schedule falsifying C4: headers, then a terminal response
body with no usage frame. -/
def c4Events : List StreamEvent :=
  [⟨false, RecvResult.Msg (ProcessingRequest.RequestHeaders ⟨[]⟩), false⟩,
   ⟨false, RecvResult.Msg (ProcessingRequest.ResponseBody ⟨10, none, true⟩), false⟩]

/-- C4 counterexample: on a completed request whose response carried no
usage field, `Process` still emits one input-token and one output-token
observation (with the zero-valued usage), so accounting is not
size-only. -/
theorem absent_usage_tokens_cex :
    (Process sampleHandlers emptyMetrics c4Events).1.reqCtx.ResponseComplete = true
    ∧ (Process sampleHandlers emptyMetrics c4Events).1.metrics.inputTokens =
      [⟨"", "", 0⟩]
    ∧ (Process sampleHandlers emptyMetrics c4Events).1.metrics.outputTokens =
      [⟨"", "", 0⟩] := by
  refine ⟨?_, ?_, ?_⟩ <;> decide

/-- C4 amended: for a completed request whose response body carries no
usage field, accounting emits size observations and, in addition, one
input-token and one output-token observation carrying the zero-valued
usage (0 prompt tokens and 0 completion tokens). Stated for the
spec-modelled `HandleResponseBody` on a request whose context never saw
a usage frame. -/
theorem absent_usage_zero_tokens (h : Handlers) (s : ProcessState) (msg : BodyMsg)
    (b : Bool)
    (hh : h.handleResponseBody = HandleResponseBody)
    (hu : msg.usage = none) (he : msg.endOfStream = true)
    (hz : s.reqCtx.Response = ⟨⟨0, 0⟩⟩) :
    (processIteration h s
        ⟨false, RecvResult.Msg (ProcessingRequest.ResponseBody msg), b⟩).1.metrics.inputTokens =
      ⟨s.reqCtx.Model, s.reqCtx.ResolvedTargetModel, 0⟩ :: s.metrics.inputTokens
    ∧ (processIteration h s
        ⟨false, RecvResult.Msg (ProcessingRequest.ResponseBody msg), b⟩).1.metrics.outputTokens =
      ⟨s.reqCtx.Model, s.reqCtx.ResolvedTargetModel, 0⟩ :: s.metrics.outputTokens := by
  simp only [processIteration, Bool.false_eq_true, if_false, switchStep, hh,
    HandleResponseBody, hu, he, eq_self_iff_true, and_self, if_true]
  rw [afterSwitch_metrics]
  by_cases hlt : s.reqCtx.RequestReceivedTimestamp < s.clock + 1 <;>
    simp [tick, RecordRequestLatencies, hlt, RecordResponseSizes, RecordInputTokens,
      RecordOutputTokens, hz]

/-- Witness for C4 (amended) on `midState` and a terminal body without
usage. -/
theorem absent_usage_zero_tokens_witness :
    (processIteration sampleHandlers midState
        ⟨false, RecvResult.Msg (ProcessingRequest.ResponseBody ⟨10, none, true⟩), false⟩).1.metrics.inputTokens =
      ⟨midState.reqCtx.Model, midState.reqCtx.ResolvedTargetModel, 0⟩ ::
        midState.metrics.inputTokens
    ∧ (processIteration sampleHandlers midState
        ⟨false, RecvResult.Msg (ProcessingRequest.ResponseBody ⟨10, none, true⟩), false⟩).1.metrics.outputTokens =
      ⟨midState.reqCtx.Model, midState.reqCtx.ResolvedTargetModel, 0⟩ ::
        midState.metrics.outputTokens :=
  absent_usage_zero_tokens sampleHandlers midState ⟨10, none, true⟩ false rfl rfl rfl rfl

/-- C7: a partial `ResponseBody` envelope (no `end_of_stream`, handled
by the spec-modelled `HandleResponseBody`) leaves every metric list,
the completion timestamp, the completion flag, the model labels, the
target pod, the request size, the receive timestamp and the clock
unchanged; only the accumulated response state (size and parsed usage)
may change. -/
theorem midstream_response_body_effect (h : Handlers) (s : ProcessState) (msg : BodyMsg)
    (b : Bool)
    (hh : h.handleResponseBody = HandleResponseBody)
    (he : msg.endOfStream = false) :
    (processIteration h s
        ⟨false, RecvResult.Msg (ProcessingRequest.ResponseBody msg), b⟩).1.metrics =
      s.metrics
    ∧ (processIteration h s
        ⟨false, RecvResult.Msg (ProcessingRequest.ResponseBody msg), b⟩).1.reqCtx.ResponseCompleteTimestamp =
      s.reqCtx.ResponseCompleteTimestamp
    ∧ (processIteration h s
        ⟨false, RecvResult.Msg (ProcessingRequest.ResponseBody msg), b⟩).1.reqCtx.ResponseComplete =
      false
    ∧ (processIteration h s
        ⟨false, RecvResult.Msg (ProcessingRequest.ResponseBody msg), b⟩).1.reqCtx.Model =
      s.reqCtx.Model
    ∧ (processIteration h s
        ⟨false, RecvResult.Msg (ProcessingRequest.ResponseBody msg), b⟩).1.reqCtx.ResolvedTargetModel =
      s.reqCtx.ResolvedTargetModel
    ∧ (processIteration h s
        ⟨false, RecvResult.Msg (ProcessingRequest.ResponseBody msg), b⟩).1.reqCtx.TargetPod =
      s.reqCtx.TargetPod
    ∧ (processIteration h s
        ⟨false, RecvResult.Msg (ProcessingRequest.ResponseBody msg), b⟩).1.reqCtx.RequestReceivedTimestamp =
      s.reqCtx.RequestReceivedTimestamp
    ∧ (processIteration h s
        ⟨false, RecvResult.Msg (ProcessingRequest.ResponseBody msg), b⟩).1.reqCtx.RequestSize =
      s.reqCtx.RequestSize
    ∧ (processIteration h s
        ⟨false, RecvResult.Msg (ProcessingRequest.ResponseBody msg), b⟩).1.clock =
      s.clock := by
  simp only [processIteration, Bool.false_eq_true, if_false, switchStep, hh,
    HandleResponseBody, he, eq_self_iff_true, true_and, and_false, and_true]
  rw [afterSwitch_metrics, afterSwitch_reqCtx, afterSwitch_clock]
  simp

/-- Witness for C7 on `midState` and a partial SSE chunk that does
carry a usage frame. -/
theorem midstream_response_body_effect_witness :
    (processIteration sampleHandlers midState
        ⟨false, RecvResult.Msg (ProcessingRequest.ResponseBody ⟨3, some ⟨1, 2⟩, false⟩), false⟩).1.metrics =
      midState.metrics
    ∧ (processIteration sampleHandlers midState
        ⟨false, RecvResult.Msg (ProcessingRequest.ResponseBody ⟨3, some ⟨1, 2⟩, false⟩), false⟩).1.reqCtx.ResponseCompleteTimestamp =
      midState.reqCtx.ResponseCompleteTimestamp
    ∧ (processIteration sampleHandlers midState
        ⟨false, RecvResult.Msg (ProcessingRequest.ResponseBody ⟨3, some ⟨1, 2⟩, false⟩), false⟩).1.reqCtx.ResponseComplete =
      false
    ∧ (processIteration sampleHandlers midState
        ⟨false, RecvResult.Msg (ProcessingRequest.ResponseBody ⟨3, some ⟨1, 2⟩, false⟩), false⟩).1.reqCtx.Model =
      midState.reqCtx.Model
    ∧ (processIteration sampleHandlers midState
        ⟨false, RecvResult.Msg (ProcessingRequest.ResponseBody ⟨3, some ⟨1, 2⟩, false⟩), false⟩).1.reqCtx.ResolvedTargetModel =
      midState.reqCtx.ResolvedTargetModel
    ∧ (processIteration sampleHandlers midState
        ⟨false, RecvResult.Msg (ProcessingRequest.ResponseBody ⟨3, some ⟨1, 2⟩, false⟩), false⟩).1.reqCtx.TargetPod =
      midState.reqCtx.TargetPod
    ∧ (processIteration sampleHandlers midState
        ⟨false, RecvResult.Msg (ProcessingRequest.ResponseBody ⟨3, some ⟨1, 2⟩, false⟩), false⟩).1.reqCtx.RequestReceivedTimestamp =
      midState.reqCtx.RequestReceivedTimestamp
    ∧ (processIteration sampleHandlers midState
        ⟨false, RecvResult.Msg (ProcessingRequest.ResponseBody ⟨3, some ⟨1, 2⟩, false⟩), false⟩).1.reqCtx.RequestSize =
      midState.reqCtx.RequestSize
    ∧ (processIteration sampleHandlers midState
        ⟨false, RecvResult.Msg (ProcessingRequest.ResponseBody ⟨3, some ⟨1, 2⟩, false⟩), false⟩).1.clock =
      midState.clock :=
  midstream_response_body_effect sampleHandlers midState ⟨3, some ⟨1, 2⟩, false⟩ false rfl rfl

/-- Witness for C2 (amended): a successfully handled request body on a
fresh stream emits the counter and size observation, and a failing one
emits nothing. -/
theorem request_counter_on_request_body_witness :
    ((processIteration sampleHandlers (initProcessState emptyMetrics)
        ⟨false, RecvResult.Msg (ProcessingRequest.RequestBody ⟨9, none, false⟩), false⟩).1.metrics.requestCounter =
      ((sampleHandlers.handleRequestBody (initProcessState emptyMetrics).reqCtx
          ⟨9, none, false⟩).1.Model,
        (sampleHandlers.handleRequestBody (initProcessState emptyMetrics).reqCtx
          ⟨9, none, false⟩).1.ResolvedTargetModel) ::
        (initProcessState emptyMetrics).metrics.requestCounter
      ∧ (processIteration sampleHandlers (initProcessState emptyMetrics)
          ⟨false, RecvResult.Msg (ProcessingRequest.RequestBody ⟨9, none, false⟩), false⟩).1.metrics.requestSizes =
        ⟨(sampleHandlers.handleRequestBody (initProcessState emptyMetrics).reqCtx
            ⟨9, none, false⟩).1.Model,
          (sampleHandlers.handleRequestBody (initProcessState emptyMetrics).reqCtx
            ⟨9, none, false⟩).1.ResolvedTargetModel,
          (sampleHandlers.handleRequestBody (initProcessState emptyMetrics).reqCtx
            ⟨9, none, false⟩).1.RequestSize⟩ ::
          (initProcessState emptyMetrics).metrics.requestSizes
      ∧ (processIteration sampleHandlers (initProcessState emptyMetrics)
          ⟨false, RecvResult.Msg (ProcessingRequest.RequestBody ⟨9, none, false⟩), false⟩).1.metrics.requestLatencies =
        (initProcessState emptyMetrics).metrics.requestLatencies
      ∧ (processIteration sampleHandlers (initProcessState emptyMetrics)
          ⟨false, RecvResult.Msg (ProcessingRequest.RequestBody ⟨9, none, false⟩), false⟩).1.metrics.responseSizes =
        (initProcessState emptyMetrics).metrics.responseSizes)
    ∧ (processIteration internalErrHandlers (initProcessState emptyMetrics)
        ⟨false, RecvResult.Msg (ProcessingRequest.RequestBody ⟨9, none, false⟩), false⟩).1.metrics =
      (initProcessState emptyMetrics).metrics :=
  ⟨(request_counter_on_request_body sampleHandlers (initProcessState emptyMetrics)
      ⟨9, none, false⟩ false).1 rfl,
   (request_counter_on_request_body internalErrHandlers (initProcessState emptyMetrics)
      ⟨9, none, false⟩ false).2 (by decide)⟩

end GatewayExt
